import Mathlib

/-!
Shallow embedding of the booking/availability core of the hotel-reservation
backend (hotel/models.py, hotel/serializers.py, hotel/views.py).

Conventions of the embedding:
* calendar dates are integers (days); subtracting two dates gives the number
  of days between them, mirroring `(check_out - check_in).days`;
* decimal money amounts are integers (cents); the source only multiplies
  them by day counts and compares them for equality, both exact operations;
* Python truthiness on a nullable decimal (`not self.total_amount`,
  `if booking and amount`) is `= none ∨ = some 0` resp. `≠ 0`;
* Python truthiness on an optional integer (`if hotel_id:`) is
  `= some h` with `h ≠ 0`;
* date and foreign-key fields declared non-nullable in the Django models are
  plain (non-Option) fields here, so their truthiness tests are always true;
* Django QuerySets over a table are lists; `filter`/`exclude`/`values_list`
  become `List.filter`/`List.map`/`List.contains`.
-/

/-- Booking.STATUS_CHOICES in hotel/models.py. -/
inductive BookingStatus where
  | PENDING
  | CONFIRMED
  | CHECKED_IN
  | CHECKED_OUT
  | CANCELLED
  | NO_SHOW
deriving DecidableEq, Repr

/-- Room.STATUS_CHOICES in hotel/models.py. -/
inductive RoomStatus where
  | AVAILABLE
  | OCCUPIED
  | MAINTENANCE
  | CLEANING
deriving DecidableEq, Repr

/-- Payment.PAYMENT_STATUS in hotel/models.py. -/
inductive PaymentStatus where
  | PENDING
  | COMPLETED
  | FAILED
  | REFUNDED
  | CANCELLED
deriving DecidableEq, Repr

/-- CustomUser.ROLE_CHOICES in hotel/models.py. -/
inductive Role where
  | customer
  | staff
  | admin
deriving DecidableEq, Repr

/-- RoomType model: the fields the booking core reads (hotel/models.py). -/
structure RoomType where
  id : Nat
  hotel_id : Nat
  base_price : Int
  capacity : Nat
deriving DecidableEq, Repr

/-- Room model (hotel/models.py); `room_type` is the dereferenced foreign key. -/
structure Room where
  id : Nat
  room_type : RoomType
  status : RoomStatus
  is_active : Bool
deriving DecidableEq, Repr

/-- Room.price_per_night property: `self.room_type.base_price`. -/
def Room.price_per_night (r : Room) : Int :=
  r.room_type.base_price

/-- Booking model (hotel/models.py); `room` is the dereferenced foreign key,
`total_amount` is the nullable decimal field. -/
structure Booking where
  id : Nat
  room : Room
  check_in_date : Int
  check_out_date : Int
  adults : Nat
  children : Nat
  status : BookingStatus
  total_amount : Option Int
deriving DecidableEq, Repr

/-- Booking.save (hotel/models.py lines 196-202): when `total_amount` is
falsy (null or zero) and the non-nullable room/date fields are present,
compute `nights = (check_out_date - check_in_date).days` and, only when
`nights > 0`, set `total_amount = nights * room.price_per_night`. -/
def Booking.save (b : Booking) : Booking :=
  if b.total_amount = none ∨ b.total_amount = some 0 then
    if 0 < b.check_out_date - b.check_in_date then
      { b with
        total_amount :=
          some ((b.check_out_date - b.check_in_date) * b.room.price_per_night) }
    else b
  else b

/-- Payment model (hotel/models.py): the fields the core logic reads;
`paid_at` is the nullable timestamp. -/
structure Payment where
  booking_id : Nat
  amount : Int
  status : PaymentStatus
  paid_at : Option Int
deriving DecidableEq, Repr

/-- Payment.save (hotel/models.py lines 248-253): when status is COMPLETED
and `paid_at` is not yet set, set it to the current time; otherwise leave
every field as it is. -/
def Payment.save (now : Int) (p : Payment) : Payment :=
  if p.status = PaymentStatus.COMPLETED ∧ p.paid_at = none then
    { p with paid_at := some now }
  else p

/-- The blocking statuses used by both conflict queries:
status__in = [CONFIRMED, CHECKED_IN, PENDING]. -/
def isBlocking (s : BookingStatus) : Bool :=
  decide (s = BookingStatus.CONFIRMED ∨ s = BookingStatus.CHECKED_IN ∨
    s = BookingStatus.PENDING)

/-- Validation errors raised by BookingSerializer.validate
(hotel/serializers.py lines 224-258), in source order. -/
inductive BookingError where
  | invalidRange
  | stayTooShort
  | capacityExceeded
  | roomUnavailable
deriving DecidableEq, Repr

/-- BookingSerializer.validate for a creation request
(hotel/serializers.py lines 224-258): reject check_in >= check_out, then a
stay shorter than one night, then a party larger than the room capacity,
then any existing booking on the same room with a blocking status whose
half-open range overlaps the requested one (check_in_date < check_out and
check_out_date > check_in).  On creation `self.instance` is None, so the
`.exclude(id=None)` clause excludes no row and is omitted. -/
def bookingSerializer_validate (bookings : List Booking) (room : Room)
    (check_in check_out : Int) (adults children : Nat) :
    Except BookingError Unit :=
  if check_in ≥ check_out then .error .invalidRange
  else if check_out - check_in < 1 then .error .stayTooShort
  else if adults + children > room.room_type.capacity then
    .error .capacityExceeded
  else if (bookings.filter fun b =>
      b.room.id == room.id &&
      decide (b.check_in_date < check_out) &&
      decide (b.check_out_date > check_in) &&
      isBlocking b.status).isEmpty = false then
    .error .roomUnavailable
  else .ok ()

/-- The conflicting-bookings query of AvailabilityAPIView.get
(hotel/views.py lines 417-420): room ids of bookings with a blocking status
whose half-open range overlaps the query range
(check_in_date < check_out and check_out_date > check_in). -/
def conflicting_room_ids (bookings : List Booking)
    (check_in check_out : Int) : List Nat :=
  (bookings.filter fun b =>
    decide (b.check_in_date < check_out) &&
    decide (b.check_out_date > check_in) &&
    isBlocking b.status).map fun b => b.room.id

/-- The room filter of AvailabilityAPIView.get: active, AVAILABLE, capacity
at least the party size, and not among the conflicting room ids. -/
def roomPasses (bookings : List Booking) (check_in check_out : Int)
    (total_guests : Nat) (r : Room) : Bool :=
  r.is_active &&
  decide (r.status = RoomStatus.AVAILABLE) &&
  decide (r.room_type.capacity ≥ total_guests) &&
  !((conflicting_room_ids bookings check_in check_out).contains r.id)

/-- AvailabilityAPIView.get, after parameter validation
(hotel/views.py lines 403-430): keep the rooms passing the filter above and
apply the hotel filter only when `hotel_id` is truthy (present and
nonzero), mirroring the Python `if hotel_id:` test. -/
def find_available (rooms : List Room) (bookings : List Booking)
    (check_in check_out : Int) (adults children : Nat)
    (hotel_id : Option Nat) : List Room :=
  let avail := rooms.filter
    (roomPasses bookings check_in check_out (adults + children))
  match hotel_id with
  | some h =>
      if h ≠ 0 then avail.filter fun r => r.room_type.hotel_id == h
      else avail
  | none => avail

/-- The hotel-filter condition a returned room actually satisfies: no
constraint when no hotel id is given or when the given id is 0 (the falsy
value the Python `if hotel_id:` test lets through), and a matching hotel
otherwise. -/
def hotelFilterOk (hotel_id : Option Nat) (r : Room) : Prop :=
  match hotel_id with
  | none => True
  | some h => h = 0 ∨ r.room_type.hotel_id = h

/-- Per-room price computation in AvailabilityAPIView.get
(hotel/views.py lines 434-435): `nights = (check_out - check_in).days`,
`total_price = nights * price_per_night if nights > 0 else price_per_night`. -/
def availability_total_price (check_in check_out : Int) (rate : Int) : Int :=
  if 0 < check_out - check_in then (check_out - check_in) * rate else rate

/-- BookingDetailAPIView.delete (hotel/views.py lines 500-504) acting on the
booking table: the booking fetched by primary key gets `status = CANCELLED`
and is saved; every other row is untouched and no row is removed. -/
def bookingDetail_delete (table : List Booking) (pk : Nat) : List Booking :=
  table.map fun b =>
    if b.id = pk then Booking.save { b with status := BookingStatus.CANCELLED }
    else b

/-- Error raised by the role gate in BookingConfirmAPIView.post. -/
inductive ApiError where
  | permissionDenied
deriving DecidableEq, Repr

/-- BookingConfirmAPIView.post (hotel/views.py lines 511-518): a 403 unless
the actor role is staff or admin; otherwise set status to CONFIRMED and
save, with no check of the booking's current state. -/
def bookingConfirm_post (role : Role) (b : Booking) : Except ApiError Booking :=
  if role = Role.staff ∨ role = Role.admin then
    .ok (Booking.save { b with status := BookingStatus.CONFIRMED })
  else .error .permissionDenied

/-- Validation error raised by PaymentSerializer.validate. -/
inductive PaymentError where
  | amountMismatch
deriving DecidableEq, Repr

/-- PaymentSerializer.validate (hotel/serializers.py lines 285-295): the
check runs only when `booking and amount` is truthy — the booking object is
always truthy, a zero amount is not — and rejects the payment when
`amount != booking.total_amount` (a null total_amount is unequal to any
decimal, as in Python). -/
def paymentSerializer_validate (booking : Booking) (amount : Int) :
    Except PaymentError Unit :=
  if amount ≠ 0 then
    if some amount ≠ booking.total_amount then .error .amountMismatch
    else .ok ()
  else .ok ()

/-- PaymentListCreateAPIView.post (hotel/views.py lines 538-549): run
PaymentSerializer validation, save the new payment (the model save stamps
`paid_at`), and when the payment status is COMPLETED set the linked booking
to CONFIRMED and save it.  Returns the stored payment and the booking row
as left by the handler. -/
def paymentListCreate_post (now : Int) (booking : Booking) (amount : Int)
    (pstatus : PaymentStatus) : Except PaymentError (Payment × Booking) :=
  match paymentSerializer_validate booking amount with
  | .error e => .error e
  | .ok _ =>
      let payment := Payment.save now
        { booking_id := booking.id, amount := amount, status := pstatus,
          paid_at := none }
      let booking' :=
        if pstatus = PaymentStatus.COMPLETED then
          Booking.save { booking with status := BookingStatus.CONFIRMED }
        else booking
      .ok (payment, booking')

/-!
Concrete sample data used by witnesses and counterexamples, and helper
lemmas about the embedded operations.
-/

/-- A room type of hotel 1: base price 150.00 (15000 cents), capacity 2. -/
def sampleRoomType : RoomType :=
  { id := 1, hotel_id := 1, base_price := 15000, capacity := 2 }

/-- An active AVAILABLE room of hotel 1. -/
def sampleRoom : Room :=
  { id := 101, room_type := sampleRoomType, status := RoomStatus.AVAILABLE,
    is_active := true }

/-- A PENDING (blocking) booking occupying sampleRoom on days [0, 5). -/
def bookingA : Booking :=
  { id := 1, room := sampleRoom, check_in_date := 0, check_out_date := 5,
    adults := 1, children := 0, status := BookingStatus.PENDING,
    total_amount := some 75000 }

/-- A CHECKED_OUT (terminal) booking on sampleRoom. -/
def bookingCheckedOut : Booking :=
  { id := 7, room := sampleRoom, check_in_date := 0, check_out_date := 5,
    adults := 2, children := 0, status := BookingStatus.CHECKED_OUT,
    total_amount := some 75000 }

/-- A CONFIRMED booking of total 450.00 that already carries a COMPLETED
payment of its full amount (the paid, already-confirmed case). -/
def bookingConfirmedPaid : Booking :=
  { id := 3, room := sampleRoom, check_in_date := 0, check_out_date := 3,
    adults := 2, children := 0, status := BookingStatus.CONFIRMED,
    total_amount := some 45000 }

/-- The COMPLETED payment already recorded for bookingConfirmedPaid. -/
def firstPayment : Payment :=
  { booking_id := 3, amount := 45000, status := PaymentStatus.COMPLETED,
    paid_at := some 50 }

/-- A CANCELLED (terminal, non-PENDING) booking. -/
def bookingCancelled : Booking :=
  { id := 4, room := sampleRoom, check_in_date := 0, check_out_date := 3,
    adults := 1, children := 0, status := BookingStatus.CANCELLED,
    total_amount := some 45000 }

/-- A freshly created three-night booking whose total is not yet computed. -/
def bookingNew : Booking :=
  { id := 10, room := sampleRoom, check_in_date := 0, check_out_date := 3,
    adults := 2, children := 0, status := BookingStatus.PENDING,
    total_amount := none }

/-- A booking whose total_amount was explicitly set to the non-null value 0. -/
def bookingZeroTotal : Booking :=
  { id := 11, room := sampleRoom, check_in_date := 0, check_out_date := 3,
    adults := 1, children := 0, status := BookingStatus.PENDING,
    total_amount := some 0 }

/-- A COMPLETED payment not yet stamped with a paid_at time. -/
def freshCompletedPayment : Payment :=
  { booking_id := 3, amount := 45000, status := PaymentStatus.COMPLETED,
    paid_at := none }

theorem Booking.save_id (b : Booking) : (Booking.save b).id = b.id := by
  unfold Booking.save
  split
  · split <;> rfl
  · rfl

theorem Booking.save_status (b : Booking) :
    (Booking.save b).status = b.status := by
  unfold Booking.save
  split
  · split <;> rfl
  · rfl

theorem mem_conflicting_room_ids (bookings : List Booking)
    (check_in check_out : Int) (rid : Nat) :
    rid ∈ conflicting_room_ids bookings check_in check_out ↔
      ∃ b ∈ bookings, isBlocking b.status = true ∧ b.room.id = rid ∧
        b.check_in_date < check_out ∧ check_in < b.check_out_date := by
  simp only [conflicting_room_ids, List.mem_map, List.mem_filter,
    Bool.and_eq_true, decide_eq_true_eq, gt_iff_lt]
  constructor
  · rintro ⟨b, ⟨hb, ⟨h1, h2⟩, h3⟩, h4⟩
    exact ⟨b, hb, h3, h4, h1, h2⟩
  · rintro ⟨b, hb, h3, h4, h1, h2⟩
    exact ⟨b, ⟨hb, ⟨h1, h2⟩, h3⟩, h4⟩

/-- Claim C1: with a blocking booking A on the same room, and a creation
request B with a valid date range and an admissible party size, validation
fails with the room-unavailable error exactly when the half-open ranges
overlap (A.check_in < B.check_out and B.check_in < A.check_out); in
particular a back-to-back request starting on A's check-out day passes. -/
theorem booking_create_conflict_iff (a : Booking) (room : Room)
    (check_in check_out : Int) (adults children : Nat)
    (hroom : a.room.id = room.id) (hblock : isBlocking a.status = true)
    (hrange : check_in < check_out)
    (hcap : adults + children ≤ room.room_type.capacity) :
    (bookingSerializer_validate [a] room check_in check_out adults children =
        Except.error BookingError.roomUnavailable ↔
      a.check_in_date < check_out ∧ check_in < a.check_out_date) ∧
    (check_in = a.check_out_date →
      bookingSerializer_validate [a] room check_in check_out adults children =
        Except.ok ()) := by
  have h1 : ¬ (check_in ≥ check_out) := not_le.mpr hrange
  have h2 : ¬ (check_out - check_in < 1) := by omega
  have h3 : ¬ (adults + children > room.room_type.capacity) := not_lt.mpr hcap
  have hv : bookingSerializer_validate [a] room check_in check_out adults
      children =
      if a.check_in_date < check_out ∧ check_in < a.check_out_date then
        Except.error BookingError.roomUnavailable
      else Except.ok () := by
    simp only [bookingSerializer_validate, if_neg h1, if_neg h2, if_neg h3]
    by_cases hA : a.check_in_date < check_out <;>
      by_cases hB : check_in < a.check_out_date <;>
        simp [List.filter, hroom, hblock, hA, hB]
  refine ⟨?_, fun hbb => ?_⟩
  · rw [hv]
    by_cases hO : a.check_in_date < check_out ∧ check_in < a.check_out_date
    · simp [hO]
    · simp [hO]
  · rw [hv, if_neg]
    rintro ⟨-, h5⟩
    omega

theorem booking_create_conflict_iff_witness :
    bookingSerializer_validate [bookingA] sampleRoom 5 8 1 0 =
      Except.ok () :=
  (booking_create_conflict_iff bookingA sampleRoom 5 8 1 0 rfl (by decide)
    (by decide) (by decide)).2 (by decide)

/-- Claim C6: a booking saved with no total_amount yet and a valid date
range stores total_amount = nights * price_per_night of its room. -/
theorem booking_save_total_amount (b : Booking)
    (h0 : b.total_amount = none) (h1 : b.check_in_date < b.check_out_date) :
    (Booking.save b).total_amount =
      some ((b.check_out_date - b.check_in_date) * b.room.price_per_night) := by
  unfold Booking.save
  rw [if_pos (Or.inl h0), if_pos (by omega)]

theorem booking_save_total_amount_witness :
    (Booking.save bookingNew).total_amount =
      some ((bookingNew.check_out_date - bookingNew.check_in_date) *
        bookingNew.room.price_per_night) :=
  booking_save_total_amount bookingNew rfl (by decide)

/-- Claim C7: the availability price is nights * rate for a positive number
of nights, and exactly one night's rate (hence nonzero for a nonzero rate)
for a degenerate range with nights <= 0. -/
theorem availability_price_formula (check_in check_out rate : Int) :
    (0 < check_out - check_in →
      availability_total_price check_in check_out rate =
        (check_out - check_in) * rate) ∧
    (check_out - check_in ≤ 0 →
      availability_total_price check_in check_out rate = rate) ∧
    (check_out - check_in ≤ 0 → rate ≠ 0 →
      availability_total_price check_in check_out rate ≠ 0) := by
  refine ⟨fun h => ?_, fun h => ?_, fun h hr => ?_⟩
  · unfold availability_total_price
    rw [if_pos h]
  · unfold availability_total_price
    rw [if_neg (by omega)]
  · unfold availability_total_price
    rw [if_neg (by omega)]
    exact hr

theorem availability_price_formula_witness :
    availability_total_price 0 3 15000 = (3 - 0) * 15000 ∧
    availability_total_price 5 5 15000 = 15000 :=
  ⟨(availability_price_formula 0 3 15000).1 (by decide),
   (availability_price_formula 5 5 15000).2.1 (by decide)⟩

/-- Claim C9: completing a payment stamps paid_at exactly once: a COMPLETED
payment with no paid_at gets the current time, a payment whose paid_at is
already set keeps it on any further save, and saving a saved payment again
changes nothing. -/
theorem payment_paid_at_set_once (p : Payment) (now1 now2 : Int) :
    (p.status = PaymentStatus.COMPLETED → p.paid_at = none →
      (Payment.save now1 p).paid_at = some now1) ∧
    (∀ t, p.paid_at = some t → (Payment.save now2 p).paid_at = some t) ∧
    Payment.save now2 (Payment.save now1 p) = Payment.save now1 p := by
  refine ⟨fun hs hn => ?_, fun t ht => ?_, ?_⟩
  · simp [Payment.save, hs, hn]
  · simp [Payment.save, ht]
  · unfold Payment.save
    by_cases hc : p.status = PaymentStatus.COMPLETED ∧ p.paid_at = none
    · rw [if_pos hc, if_neg (by simp)]
    · rw [if_neg hc, if_neg hc]

theorem payment_paid_at_set_once_witness :
    (Payment.save 100 freshCompletedPayment).paid_at = some 100 ∧
    Payment.save 200 (Payment.save 100 freshCompletedPayment) =
      Payment.save 100 freshCompletedPayment :=
  ⟨(payment_paid_at_set_once freshCompletedPayment 100 200).1 rfl rfl,
   (payment_paid_at_set_once freshCompletedPayment 100 200).2.2⟩

/-- Claim C2 counterexample: the delete handler cancels a CHECKED_OUT
(terminal) booking without failing — it simply rewrites the row's status to
CANCELLED, contradicting the claim that cancelling a terminal booking
fails. -/
theorem cancel_checked_out_succeeds :
    bookingCheckedOut.status = BookingStatus.CHECKED_OUT ∧
    bookingDetail_delete [bookingCheckedOut] 7 =
      [{ bookingCheckedOut with status := BookingStatus.CANCELLED }] :=
  ⟨rfl, rfl⟩

/-- Claim C2 (amended): cancellation is a status transition, never a
deletion: the handler preserves the table's row ids (so payments and
reviews referencing the booking stay valid), sets the selected booking's
status to CANCELLED whatever its current state — terminal states included —
and leaves every other row unchanged. -/
theorem cancel_is_status_transition (table : List Booking) (pk : Nat) :
    (bookingDetail_delete table pk).map (fun b => b.id) =
      table.map (fun b => b.id) ∧
    (∀ b ∈ bookingDetail_delete table pk, b.id = pk →
      b.status = BookingStatus.CANCELLED) ∧
    (∀ b ∈ table, b.id ≠ pk → b ∈ bookingDetail_delete table pk) := by
  refine ⟨?_, ?_, ?_⟩
  · unfold bookingDetail_delete
    rw [List.map_map]
    apply List.map_congr_left
    intro b _
    simp only [Function.comp]
    by_cases hb : b.id = pk
    · rw [if_pos hb, Booking.save_id]
    · rw [if_neg hb]
  · intro b hb hpk
    unfold bookingDetail_delete at hb
    obtain ⟨x, hx, hfx⟩ := List.mem_map.mp hb
    by_cases hxpk : x.id = pk
    · rw [if_pos hxpk] at hfx
      rw [← hfx, Booking.save_status]
    · rw [if_neg hxpk] at hfx
      rw [← hfx] at hpk
      exact absurd hpk hxpk
  · intro b hb hne
    unfold bookingDetail_delete
    exact List.mem_map.mpr ⟨b, hb, by rw [if_neg hne]⟩

theorem cancel_is_status_transition_witness :
    (Booking.save
      { bookingCheckedOut with status := BookingStatus.CANCELLED }).status =
      BookingStatus.CANCELLED :=
  (cancel_is_status_transition [bookingCheckedOut] 7).2.1 _
    (by decide) (by decide)

/-- Claim C4 counterexample: a staff actor confirming a CANCELLED
(non-PENDING, terminal) booking succeeds and the booking becomes CONFIRMED,
contradicting the claim that confirmation is allowed only from PENDING. -/
theorem confirm_non_pending_succeeds :
    bookingCancelled.status ≠ BookingStatus.PENDING ∧
    bookingConfirm_post Role.staff bookingCancelled =
      Except.ok { bookingCancelled with status := BookingStatus.CONFIRMED } :=
  ⟨by decide, rfl⟩

/-- Claim C4 (amended): confirmation requires an elevated role — a customer
gets PermissionError and no booking is returned or modified — and for a
staff or admin actor it succeeds, setting the booking to CONFIRMED
regardless of its current state (there is no PENDING guard). -/
theorem confirm_role_gate (role : Role) (b : Booking) :
    (role = Role.customer →
      bookingConfirm_post role b = Except.error ApiError.permissionDenied) ∧
    ((role = Role.staff ∨ role = Role.admin) →
      ∃ b2, bookingConfirm_post role b = Except.ok b2 ∧
        b2.status = BookingStatus.CONFIRMED ∧ b2.id = b.id) := by
  refine ⟨fun hc => ?_, fun hr => ?_⟩
  · subst hc
    unfold bookingConfirm_post
    rw [if_neg (by decide)]
  · refine ⟨Booking.save { b with status := BookingStatus.CONFIRMED }, ?_, ?_, ?_⟩
    · unfold bookingConfirm_post
      rw [if_pos hr]
    · rw [Booking.save_status]
    · rw [Booking.save_id]

theorem confirm_role_gate_witness :
    bookingConfirm_post Role.customer bookingCancelled =
      Except.error ApiError.permissionDenied ∧
    ∃ b2, bookingConfirm_post Role.admin bookingCancelled = Except.ok b2 ∧
      b2.status = BookingStatus.CONFIRMED ∧ b2.id = bookingCancelled.id :=
  ⟨(confirm_role_gate Role.customer bookingCancelled).1 rfl,
   (confirm_role_gate Role.admin bookingCancelled).2 (Or.inr rfl)⟩

/-- Claim C10 counterexample: a booking whose total_amount was explicitly
set to the non-null value 0 does not keep it: the model save recomputes it
as nights * rate (here 3 * 15000), because the guard uses decimal
truthiness, not a null check. -/
theorem zero_total_amount_recomputed :
    bookingZeroTotal.total_amount = some 0 ∧
    (Booking.save bookingZeroTotal).total_amount = some 45000 :=
  ⟨rfl, rfl⟩

/-- Claim C10 (amended): a booking whose total_amount is set to a non-null,
nonzero value keeps it across any save, whatever its dates or room; and
when total_amount is unset and the range yields nights <= 0 it stays
unset. -/
theorem total_amount_frame (b : Booking) :
    (∀ t, b.total_amount = some t → t ≠ 0 →
      (Booking.save b).total_amount = some t) ∧
    (b.total_amount = none → b.check_out_date - b.check_in_date ≤ 0 →
      (Booking.save b).total_amount = none) := by
  refine ⟨fun t ht hnz => ?_, fun hn hd => ?_⟩
  · have hcond : ¬ (b.total_amount = none ∨ b.total_amount = some 0) := by
      rw [ht]
      rintro (h | h)
      · exact Option.noConfusion h
      · exact hnz (Option.some.inj h)
    unfold Booking.save
    rw [if_neg hcond]
    exact ht
  · unfold Booking.save
    rw [if_pos (Or.inl hn), if_neg (by omega)]
    exact hn

theorem total_amount_frame_witness :
    (Booking.save bookingConfirmedPaid).total_amount = some 45000 :=
  (total_amount_frame bookingConfirmedPaid).1 45000 rfl (by decide)

/-- Claim C8 counterexample: a payment of amount 0 against a booking whose
total is 450.00 passes validation — the amount-match check is skipped for a
falsy (zero) amount — contradicting the claim that any differing amount is
rejected. -/
theorem zero_amount_payment_accepted :
    bookingConfirmedPaid.total_amount = some 45000 ∧
    paymentSerializer_validate bookingConfirmedPaid 0 = Except.ok () :=
  ⟨rfl, rfl⟩

/-- Claim C8 (amended): payment validation succeeds exactly when the amount
is zero (truthiness bypass) or equals the linked booking's total_amount;
every nonzero amount differing from the total is rejected. -/
theorem payment_amount_validation (booking : Booking) (amount : Int) :
    paymentSerializer_validate booking amount = Except.ok () ↔
      (amount = 0 ∨ booking.total_amount = some amount) := by
  unfold paymentSerializer_validate
  by_cases ha : amount = 0
  · rw [if_neg (fun hne => hne ha)]
    simp [ha]
  · rw [if_pos ha]
    by_cases hb : some amount = booking.total_amount
    · rw [if_neg (fun hne => hne hb)]
      simp [ha, hb.symm]
    · rw [if_pos hb]
      simp only [iff_iff_implies_and_implies]
      constructor
      · intro h
        exact absurd h (by simp)
      · rintro (h | h)
        · exact absurd h ha
        · exact absurd h.symm hb

/-- Claim C3 counterexample: a booking that is already CONFIRMED and already
carries a COMPLETED payment of its full amount accepts a second COMPLETED
payment of the same amount — the request succeeds and re-saves the booking
as CONFIRMED, with no AlreadyPaidError anywhere on this path. -/
theorem duplicate_completed_payment_accepted :
    bookingConfirmedPaid.status = BookingStatus.CONFIRMED ∧
    firstPayment.booking_id = bookingConfirmedPaid.id ∧
    firstPayment.status = PaymentStatus.COMPLETED ∧
    some firstPayment.amount = bookingConfirmedPaid.total_amount ∧
    paymentListCreate_post 100 bookingConfirmedPaid 45000
        PaymentStatus.COMPLETED =
      Except.ok
        ({ booking_id := 3, amount := 45000,
           status := PaymentStatus.COMPLETED, paid_at := some 100 },
         { bookingConfirmedPaid with status := BookingStatus.CONFIRMED }) :=
  ⟨rfl, rfl, rfl, rfl, rfl⟩

/-- Claim C3 (amended): recording a COMPLETED payment that passes validation
(zero amount or amount equal to the booking's total) always succeeds and
sets the booking to CONFIRMED regardless of its prior state — when the
booking is PENDING it becomes CONFIRMED, and when it is already CONFIRMED
and paid the duplicate payment is accepted as well, with its own paid_at
stamp; no AlreadyPaidError exists in the active payment path. -/
theorem completed_payment_confirms (now : Int) (booking : Booking)
    (amount : Int) (h : amount = 0 ∨ booking.total_amount = some amount) :
    ∃ p b2,
      paymentListCreate_post now booking amount PaymentStatus.COMPLETED =
        Except.ok (p, b2) ∧
      b2.status = BookingStatus.CONFIRMED ∧ b2.id = booking.id ∧
      p.paid_at = some now := by
  have hv : paymentSerializer_validate booking amount = Except.ok () := by
    unfold paymentSerializer_validate
    by_cases ha : amount = 0
    · rw [if_neg (fun hne => hne ha)]
    · rcases h with h | h
      · exact absurd h ha
      · rw [if_pos ha, if_neg (fun hne => hne h.symm)]
  refine ⟨Payment.save now
      { booking_id := booking.id, amount := amount,
        status := PaymentStatus.COMPLETED, paid_at := none },
    Booking.save { booking with status := BookingStatus.CONFIRMED },
    ?_, ?_, ?_, ?_⟩
  · unfold paymentListCreate_post
    rw [hv]
    rfl
  · rw [Booking.save_status]
  · rw [Booking.save_id]
  · simp [Payment.save]

theorem completed_payment_confirms_witness :
    ∃ p b2,
      paymentListCreate_post 100 bookingConfirmedPaid 45000
          PaymentStatus.COMPLETED =
        Except.ok (p, b2) ∧
      b2.status = BookingStatus.CONFIRMED ∧
      b2.id = bookingConfirmedPaid.id ∧ p.paid_at = some 100 :=
  completed_payment_confirms 100 bookingConfirmedPaid 45000 (Or.inr rfl)

/-- Claim C5 counterexample: querying with the explicit hotel filter 0
returns a room of hotel 1 — the Python `if hotel_id:` truthiness test skips
the hotel filter for the given id 0, so the result does not match the given
hotel filter. -/
theorem hotel_filter_zero_bypassed :
    sampleRoom.room_type.hotel_id ≠ 0 ∧
    find_available [sampleRoom] [] 0 3 1 0 (some 0) = [sampleRoom] :=
  ⟨by decide, rfl⟩

/-- Claim C5 (amended): for a valid date range, the availability search
returns exactly the rooms that are active, AVAILABLE, large enough for
adults + children, satisfy the hotel filter whenever a nonzero hotel id is
given (a zero id is falsy and bypasses the filter), and have no blocking
booking overlapping the half-open query range. -/
theorem find_available_mem_iff (rooms : List Room) (bookings : List Booking)
    (check_in check_out : Int) (adults children : Nat)
    (hotel_id : Option Nat) (r : Room) (hrange : check_in < check_out) :
    r ∈ find_available rooms bookings check_in check_out adults children
        hotel_id ↔
      r ∈ rooms ∧ r.is_active = true ∧ r.status = RoomStatus.AVAILABLE ∧
      adults + children ≤ r.room_type.capacity ∧ hotelFilterOk hotel_id r ∧
      ¬ ∃ b ∈ bookings, isBlocking b.status = true ∧ b.room.id = r.id ∧
        b.check_in_date < check_out ∧ check_in < b.check_out_date := by
  have hpass : ∀ s : Room,
      roomPasses bookings check_in check_out (adults + children) s = true ↔
      (s.is_active = true ∧ s.status = RoomStatus.AVAILABLE ∧
        adults + children ≤ s.room_type.capacity ∧
        ¬ ∃ b ∈ bookings, isBlocking b.status = true ∧ b.room.id = s.id ∧
          b.check_in_date < check_out ∧ check_in < b.check_out_date) := by
    intro s
    simp only [roomPasses, Bool.and_eq_true, decide_eq_true_eq,
      Bool.not_eq_true', List.contains, List.elem_eq_mem,
      decide_eq_false_iff_not, mem_conflicting_room_ids, ge_iff_le]
    tauto
  rcases hotel_id with _ | h
  · simp only [find_available, List.mem_filter, hpass, hotelFilterOk]
    tauto
  · by_cases h0 : h = 0
    · subst h0
      have hif : ¬ ((0 : Nat) ≠ 0) := fun hne => hne rfl
      simp only [find_available]
      rw [if_neg hif]
      simp only [List.mem_filter, hpass, hotelFilterOk]
      tauto
    · simp only [find_available, if_pos h0, List.mem_filter, hpass,
        hotelFilterOk, beq_iff_eq]
      tauto

theorem find_available_mem_iff_witness :
    sampleRoom ∈ find_available [sampleRoom] [] 0 3 2 0 none :=
  (find_available_mem_iff [sampleRoom] [] 0 3 2 0 none sampleRoom
      (by decide)).mpr
    ⟨List.mem_singleton.mpr rfl, rfl, rfl, by decide, trivial, by simp⟩
